import Mathlib

/-!
Verification of the microphone transcription client
(`src/python-real-time/microphone_transcription.py`) against its
natural-language specification.

The Python source is shallowly embedded: pure helpers become Lean
functions, the mutable client object becomes an explicit `ClientState`
record, and side-effecting steps (stream control, socket emissions)
become event traces.  Machine arithmetic is modelled with `Nat`/`Int`;
the float computation `int(len(audio_data) * ratio)` is modelled by
exact natural-number floor division, and the float pipeline
`np.clip(x * 1.1, -32768, 32767).astype(np.int16)` by exact rational
truncation toward zero followed by clamping (for |x| ≤ 32768 the float
rounding of `x * 1.1` never crosses an integer boundary, so the exact
model agrees with the float one).

`scipy.signal.resample` is an external library call; it is modelled as
an explicit function parameter `R : List Int → Nat → List Int`
(input samples, requested output length), constrained where needed by
its documented contract `(R l n).length = n`.
-/

namespace Mic

/-- Signed 16-bit range bounds used throughout the script. -/
def int16Min : Int := -32768

def int16Max : Int := 32767

/-- `numpy` cast of an arbitrary integer into `int16` (wrapping, two's
complement) — the semantics of `.astype(np.int16)` on out-of-range data. -/
def toInt16 (x : Int) : Int :=
  (x + 32768) % 65536 - 32768

/-- Python `int()` applied to `len(audio_data) * (target_rate / original_rate)`
for nonnegative data: truncation, i.e. floor division on naturals.
Embeds line `resampled_length = int(len(audio_data) * ratio)`. -/
def resampledLength (n originalRate targetRate : Nat) : Nat :=
  n * targetRate / originalRate

/-- Embeds `_resample_audio(audio_data, original_rate, target_rate)`.
`R` stands for the external `scipy.signal.resample`; the source applies
`.astype(np.int16)` (wrapping cast) to its float output. -/
def resample_audio (R : List Int → Nat → List Int)
    (audio_data : List Int) (original_rate target_rate : Nat) : List Int :=
  if original_rate = target_rate then
    audio_data
  else
    (R audio_data (resampledLength audio_data.length original_rate target_rate)).map toInt16

/-- The per-sample gain step of `_process_audio_chunk`:
`np.clip(x * 1.1, -32768, 32767).astype(np.int16)`.
Exact model: truncate `11*x/10` toward zero (`Int.tdiv` is T-division),
then clamp to the signed 16-bit range (clipping the float before the
cast equals clamping the truncation, since the clip bounds are integers). -/
def boost (x : Int) : Int :=
  max int16Min (min int16Max (Int.tdiv (11 * x) 10))

/-- Embeds `_process_audio_chunk(raw_audio)` at the sample level: the
byte buffer is `np.frombuffer`-decoded into 16-bit samples before entry
and re-encoded after, so the model works on sample lists.
`input_sample_rate`/`sample_rate` are the client fields of the same name. -/
def process_audio_chunk (R : List Int → Nat → List Int)
    (samples : List Int) (input_sample_rate sample_rate : Nat) : List Int :=
  let resampled :=
    if input_sample_rate ≠ sample_rate then
      resample_audio R samples input_sample_rate sample_rate
    else
      samples
  resampled.map boost

/-- Rounding to the nearest integer of the fraction `a / b` (half away
from zero), as the spec's `round(len(block) * targetRate / sourceRate)`. -/
def roundDiv (a b : Nat) : Nat :=
  (2 * a + b) / (2 * b)

/-- `scipy.signal.resample(x, num)` with its error path made explicit:
the library's FFT backend rejects zero-point transforms (`ValueError:
Invalid number of FFT data points (0) specified` — the forward `rfft`
raises on an empty input axis, and a requested output length of 0 is
likewise rejected); away from those it returns `num` samples, whose
values the parameter `R` abstracts. -/
def scipyResample (R : List Int → Nat → List Int) (x : List Int) (num : Nat) :
    Except String (List Int) :=
  if x.isEmpty || num == 0 then
    Except.error "Invalid number of FFT data points (0) specified."
  else
    Except.ok (R x num)

/-- `_resample_audio` with the external call's error path tracked;
agrees with `Except.ok` of the pure `resample_audio` away from
zero-point transforms (`process_audio_chunk_exc_ok`). -/
def resample_audio_exc (R : List Int → Nat → List Int)
    (audio_data : List Int) (original_rate target_rate : Nat) :
    Except String (List Int) :=
  if original_rate = target_rate then Except.ok audio_data
  else
    (scipyResample R audio_data
      (resampledLength audio_data.length original_rate target_rate)).map (List.map toInt16)

/-- `_process_audio_chunk` with the external call's error path tracked:
an uncaught exception from the resample call propagates out of the
transform. -/
def process_audio_chunk_exc (R : List Int → Nat → List Int)
    (samples : List Int) (input_sample_rate sample_rate : Nat) :
    Except String (List Int) :=
  (if input_sample_rate ≠ sample_rate then
      resample_audio_exc R samples input_sample_rate sample_rate
    else Except.ok samples).map (List.map boost)

/-- The mutable state of `MicrophoneTranscriptionClient` that the
verified operations read or write.  `audio_stream` / `pyaudio_instance`
are abstract handles (`some h` = resource held); `queued` is the
contents of `self.audio_queue` (which the source constructs but never
writes to). -/
structure ClientState where
  is_connected : Bool
  is_recording : Bool
  input_sample_rate : Nat
  sample_rate : Nat
  audio_stream : Option Nat
  pyaudio_instance : Option Nat
  queued : List (List Int)
deriving DecidableEq

/-- Embeds `_audio_callback(in_data, ...)`: returns the (unchanged)
client state and the frame scheduled for the `audioStream` emission, if
any.  The source gates on `self.is_recording and self.is_connected`,
processes the chunk and schedules `sio.emit('audioStream', ...)`;
otherwise the block is ignored (the callback only returns
`(in_data, paContinue)` to the OS).  Exceptions inside the gated branch
are caught and logged by the source; the scheduling machinery itself
(event-loop hand-off) is outside this model. -/
def audio_callback (R : List Int → Nat → List Int)
    (s : ClientState) (in_data : List Int) : ClientState × Option (List Int) :=
  if s.is_recording && s.is_connected then
    (s, some (process_audio_chunk R in_data s.input_sample_rate s.sample_rate))
  else
    (s, none)

/-- Embeds the stream-open loop of `start_recording`
(`for attempt_rate in [self.input_sample_rate, 44100, 48000, 16000]`):
`accepts` models whether `pyaudio.open` succeeds at a rate; the loop
re-raises (`none`) as soon as a failing attempt has `attempt_rate ==
16000` (the source's `# Last attempt` check), else moves on.  `some r`
means the stream opened and `r` became the active input sample rate. -/
def tryOpenRates (accepts : Nat → Bool) : List Nat → Option Nat
  | [] => none
  | rate :: rest =>
    if accepts rate then some rate
    else if rate == 16000 then none
    else tryOpenRates accepts rest

/-- The candidate-rate list of `start_recording` for selected rate `r`. -/
def fallbackRates (r : Nat) : List Nat :=
  [r, 44100, 48000, 16000]

/-- The open attempt of `start_recording` over the fallback list. -/
def start_recording_open (input_sample_rate : Nat) (accepts : Nat → Bool) : Option Nat :=
  tryOpenRates accepts (fallbackRates input_sample_rate)

/-- Modelled from the spec's words (claim C3), for comparison with
`start_recording_open`: "attempts candidate rates in the order r, 44100,
48000, 16000; the first rate the OS accepts becomes the active source
rate; the open fails fatally only after the last candidate has also
failed" — i.e. the first accepted element of the list, if any. -/
def open_fallback_claim (r : Nat) (accepts : Nat → Bool) : Option Nat :=
  (fallbackRates r).find? accepts

/-- Observable side-effecting steps of the shutdown path. -/
inductive ShutdownEvent where
  | stopStream
  | closeStream
  | terminatePA
  | emitStreamEnd
  | sioDisconnect
deriving DecidableEq, Repr

/-- Position of the first occurrence of `e` in a trace (length if absent). -/
def idxOf (e : ShutdownEvent) : List ShutdownEvent → Nat
  | [] => 0
  | x :: xs => if x = e then 0 else idxOf e xs + 1

/-- Embeds `stop_recording`: no-op when not recording; otherwise clears
the recording flag, stops and closes the audio stream (if open),
terminates the PyAudio instance (if held), and only then — still inside
the same method — emits `streamEnd` when connected.  Returns the new
state and the ordered trace of steps taken. -/
def stop_recording (s : ClientState) : ClientState × List ShutdownEvent :=
  if !s.is_recording then (s, [])
  else
    let s1 := { s with is_recording := false }
    let p1 : ClientState × List ShutdownEvent :=
      match s1.audio_stream with
      | some _ => ({ s1 with audio_stream := none },
          [ShutdownEvent.stopStream, ShutdownEvent.closeStream])
      | none => (s1, [])
    let p2 : ClientState × List ShutdownEvent :=
      match p1.1.pyaudio_instance with
      | some _ => ({ p1.1 with pyaudio_instance := none }, p1.2 ++ [ShutdownEvent.terminatePA])
      | none => p1
    if p2.1.is_connected then (p2.1, p2.2 ++ [ShutdownEvent.emitStreamEnd])
    else p2

/-- Embeds `disconnect`: first `stop_recording`, then `sio.disconnect()`
when still connected. -/
def disconnect (s : ClientState) : ClientState × List ShutdownEvent :=
  let p := stop_recording s
  if p.1.is_connected then
    ({ p.1 with is_connected := false }, p.2 ++ [ShutdownEvent.sioDisconnect])
  else p

/-- The shutdown order asserted by claim C4: capture stop, then
`streamEnd`, then socket disconnect, then resource release. -/
def claimC4Order (t : List ShutdownEvent) : Prop :=
  idxOf ShutdownEvent.stopStream t < idxOf ShutdownEvent.emitStreamEnd t ∧
  idxOf ShutdownEvent.emitStreamEnd t < idxOf ShutdownEvent.sioDisconnect t ∧
  idxOf ShutdownEvent.sioDisconnect t < idxOf ShutdownEvent.closeStream t ∧
  idxOf ShutdownEvent.sioDisconnect t < idxOf ShutdownEvent.terminatePA t

instance (t : List ShutdownEvent) : Decidable (claimC4Order t) := by
  unfold claimC4Order; infer_instance

/-- Python values as they occur in the configuration and in inbound
event payloads: `None`, booleans, integers, strings, lists and dicts
(dicts as insertion-ordered association lists, as in CPython). -/
inductive Value where
  | vNone : Value
  | vBool : Bool → Value
  | vInt : Int → Value
  | vStr : String → Value
  | vList : List Value → Value
  | vDict : List (String × Value) → Value

mutual

/-- Python `repr` of a value (string escaping edge cases aside). -/
def pyRepr : Value → String
  | Value.vNone => "None"
  | Value.vBool b => if b then "True" else "False"
  | Value.vInt n => toString n
  | Value.vStr s => "\'" ++ s ++ "\'"
  | Value.vList l => "[" ++ pyReprList l ++ "]"
  | Value.vDict d => "\x7b" ++ pyReprDict d ++ "\x7d"

/-- Comma-separated reprs of list elements. -/
def pyReprList : List Value → String
  | [] => ""
  | [x] => pyRepr x
  | x :: xs => pyRepr x ++ ", " ++ pyReprList xs

/-- Comma-separated `key: value` reprs of dict items. -/
def pyReprDict : List (String × Value) → String
  | [] => ""
  | [(k, v)] => "\'" ++ k ++ "\': " ++ pyRepr v
  | (k, v) :: xs => "\'" ++ k ++ "\': " ++ pyRepr v ++ ", " ++ pyReprDict xs

end

/-- Python `str` of a value: the string itself for strings, `repr`
otherwise (containers render their elements with `repr`). -/
def pyStr : Value → String
  | Value.vStr s => s
  | v => pyRepr v

mutual

/-- `json.dumps` with default separators (string escaping edge cases
aside). -/
def jsonDumps : Value → String
  | Value.vNone => "null"
  | Value.vBool b => if b then "true" else "false"
  | Value.vInt n => toString n
  | Value.vStr s => "\"" ++ s ++ "\""
  | Value.vList l => "[" ++ jsonDumpsList l ++ "]"
  | Value.vDict d => "\x7b" ++ jsonDumpsDict d ++ "\x7d"

/-- Comma-separated JSON of list elements. -/
def jsonDumpsList : List Value → String
  | [] => ""
  | [x] => jsonDumps x
  | x :: xs => jsonDumps x ++ ", " ++ jsonDumpsList xs

/-- Comma-separated `"key": value` JSON of dict items. -/
def jsonDumpsDict : List (String × Value) → String
  | [] => ""
  | [(k, v)] => "\"" ++ k ++ "\": " ++ jsonDumps v
  | (k, v) :: xs => "\"" ++ k ++ "\": " ++ jsonDumps v ++ ", " ++ jsonDumpsDict xs

end

/-- `true` for values that are neither lists nor dicts. -/
def Value.isScalar : Value → Bool
  | Value.vList _ => false
  | Value.vDict _ => false
  | _ => true

/-- Embeds the per-option serialization in `connect`:
lists become `','.join(map(str, value))`; a dict becomes `json.dumps`
only when its key is `'tags'`; everything else becomes `str(value)`. -/
def serializeOption (key : String) (value : Value) : String :=
  match value with
  | Value.vList l => String.intercalate "," (l.map pyStr)
  | Value.vDict d => if key == "tags" then jsonDumps (Value.vDict d) else pyStr (Value.vDict d)
  | v => pyStr v

/-- Modelled from the claim's words (C8), for comparison with
`serializeOption`: "every list value becomes a comma-joined string of
its elements, every map (dict) value becomes a serialized-object (JSON)
string, and every other value becomes its plain string form" —
irrespective of the key. -/
def serializeOptionClaim (_key : String) (value : Value) : String :=
  match value with
  | Value.vList l => String.intercalate "," (l.map pyStr)
  | Value.vDict d => jsonDumps (Value.vDict d)
  | v => pyStr v

/-- `query_params` built by `connect` from the sttOptions dict
(insertion order preserved, as in CPython). -/
def buildQueryParams (sttOptions : List (String × Value)) : List (String × String) :=
  sttOptions.map (fun kv => (kv.1, serializeOption kv.1 kv.2))

/-- Upper-case hexadecimal digit. -/
def hexDigitChar (n : Nat) : Char :=
  if n < 10 then Char.ofNat (48 + n) else Char.ofNat (55 + n)

/-- `%XX` percent-escape of one byte. -/
def percentEncodeByte (b : Nat) : String :=
  "%" ++ String.singleton (hexDigitChar (b / 16)) ++ String.singleton (hexDigitChar (b % 16))

/-- UTF-8 bytes of a character (as naturals < 256). -/
def utf8Bytes (c : Char) : List Nat :=
  let n := c.toNat
  if n < 128 then [n]
  else if n < 2048 then [192 + n / 64, 128 + n % 64]
  else if n < 65536 then [224 + n / 4096, 128 + (n / 64) % 64, 128 + n % 64]
  else [240 + n / 262144, 128 + (n / 4096) % 64, 128 + (n / 64) % 64, 128 + n % 64]

/-- Characters `urllib.parse.quote_plus` leaves unescaped. -/
def isUrlSafe (c : Char) : Bool :=
  c.isAlphanum || c == '_' || c == '.' || c == '-' || c == '~'

/-- `urllib.parse.quote_plus`: safe characters kept, space becomes `+`,
everything else percent-encoded bytewise. -/
def quotePlus (s : String) : String :=
  String.join (s.toList.map fun c =>
    if isUrlSafe c then String.singleton c
    else if c == ' ' then "+"
    else String.join ((utf8Bytes c).map percentEncodeByte))

/-- `urllib.parse.urlencode` over an ordered parameter list. -/
def urlencode (params : List (String × String)) : String :=
  String.intercalate "&" (params.map fun kv => quotePlus kv.1 ++ "=" ++ quotePlus kv.2)

/-- The session configuration fields `connect` reads. -/
structure Config where
  serverUrl : String
  apiKey : String
  sttOptions : List (String × Value)

/-- The query string `connect` builds (`urllib.parse.urlencode(query_params)`). -/
def connect_query_string (c : Config) : String :=
  urlencode (buildQueryParams c.sttOptions)

/-- The connection URL `connect` passes to `sio.connect`:
`f"{serverUrl}/listen?{query_string}"`. -/
def connect_full_url (c : Config) : String :=
  c.serverUrl ++ "/listen" ++ "?" ++ connect_query_string c

/-- The handshake auth payload of `connect`: `auth={'token': apiKey}`. -/
def connect_auth (c : Config) : List (String × String) :=
  [("token", c.apiKey)]

/-- A device as reported by PyAudio during enumeration.  `accepts` lists
the rates for which `is_format_supported(rate, device, 1, paInt16)`
succeeds (an unsupported rate raises in PyAudio; the source catches the
exception and skips the rate, so "raises" and "returns False" coincide
in the model).  Devices whose info query itself raises are simply
absent from the enumeration list. -/
structure DeviceInfo where
  index : Nat
  name : String
  maxInputChannels : Nat
  defaultSampleRate : Nat
  accepts : List Nat
deriving DecidableEq

/-- The per-device record `_find_best_microphone` builds. -/
structure MicEntry where
  index : Nat
  name : String
  priority : Nat
  default_sample_rate : Nat
  supported_rates : List Nat
  channels : Nat
deriving DecidableEq

/-- Contiguous-sublist test on character lists. -/
def charsInfix (sub : List Char) : List Char → Bool
  | [] => sub.isEmpty
  | b :: bs' => List.isPrefixOf sub (b :: bs') || charsInfix sub bs'

/-- Python's `sub in s` on strings. -/
def strContains (s sub : String) : Bool :=
  charsInfix sub.toList s.toList

/-- Python's `.lower()` (ASCII case fold, as in the device names probed). -/
def strLower (s : String) : String :=
  String.mk (s.toList.map Char.toLower)

/-- The keyword priority score of `_find_best_microphone`. -/
def priorityOf (name : String) : Nat :=
  let nm := strLower name
  if strContains nm "logitech" || strContains nm "logitec" then 3
  else if strContains nm "microphone" || strContains nm "mic" then 2
  else if strContains nm "headset" || strContains nm "headphone" then 1
  else 0

/-- The probe rates of `_find_best_microphone` (`test_rates`). -/
def testRates : List Nat :=
  [44100, 48000, 16000, 8000]

/-- Builds the `microphone_devices` entry for one device: skip devices
without input channels, record supported probe rates, skip devices
supporting none. -/
def probeDevice (d : DeviceInfo) : Option MicEntry :=
  if d.maxInputChannels > 0 then
    let rates := testRates.filter (fun r => d.accepts.contains r)
    if rates.isEmpty then none
    else some ⟨d.index, d.name, priorityOf d.name, d.defaultSampleRate, rates, d.maxInputChannels⟩
  else none

/-- The sort key of `_find_best_microphone`:
`(priority, 44100 in supported_rates, len(supported_rates))`. -/
def micKey (m : MicEntry) : Nat × Nat × Nat :=
  (m.priority, if m.supported_rates.contains 44100 then 1 else 0, m.supported_rates.length)

/-- Strict lexicographic order on the sort key. -/
def keyLt (x y : Nat × Nat × Nat) : Bool :=
  x.1 < y.1 || (x.1 == y.1 && (x.2.1 < y.2.1 || (x.2.1 == y.2.1 && x.2.2 < y.2.2)))

/-- Stable descending insertion: an element is placed before the first
strictly smaller key, i.e. after every earlier element of ≥ key. -/
def insertByKeyDesc (x : MicEntry) : List MicEntry → List MicEntry
  | [] => [x]
  | y :: ys =>
    if keyLt (micKey x) (micKey y) then y :: insertByKeyDesc x ys
    else x :: y :: ys

/-- Stable descending sort by `micKey`.  Python's
`sort(key=..., reverse=True)` is stable and descending; a stable sort by
a fixed total preorder is unique, so this insertion sort computes
exactly the list CPython produces. -/
def sortByKeyDesc : List MicEntry → List MicEntry
  | [] => []
  | x :: xs => insertByKeyDesc x (sortByKeyDesc xs)

/-- Embeds `_find_best_microphone`: returns the chosen device index (or
`none` when no compatible device is found) together with the value of
`self.input_sample_rate` after the call — the source updates that field
to 44100 if the best device supports it, else 48000, else the first
supported probe rate. -/
def find_best_microphone (input_sample_rate : Nat) (devices : List DeviceInfo) :
    Option Nat × Nat :=
  let entries := devices.filterMap probeDevice
  match sortByKeyDesc entries with
  | [] => (none, input_sample_rate)
  | best :: _ =>
    let newRate :=
      if best.supported_rates.contains 44100 then 44100
      else if best.supported_rates.contains 48000 then 48000
      else
        match best.supported_rates with
        | r :: _ => r
        | [] => input_sample_rate
    (some best.index, newRate)

/-- `_find_best_microphone` as a transition on the client state: only
`input_sample_rate` is written; no stream is opened. -/
def find_best_microphone_state (s : ClientState) (devices : List DeviceInfo) :
    ClientState × Option Nat :=
  let r := find_best_microphone s.input_sample_rate devices
  ({ s with input_sample_rate := r.2 }, r.1)

/-- Python truthiness of a value. -/
def truthy : Value → Bool
  | Value.vNone => false
  | Value.vBool b => b
  | Value.vInt n => n != 0
  | Value.vStr s => !s.isEmpty
  | Value.vList l => !l.isEmpty
  | Value.vDict d => !d.isEmpty

/-- Python `a or b`. -/
def pyOr (a b : Value) : Value :=
  if truthy a then a else b

/-- Python `data.get(k)` on a dict (missing key yields `None`). -/
def dictGet (d : List (String × Value)) (k : String) : Value :=
  match d.find? (fun kv => kv.1 == k) with
  | some kv => kv.2
  | none => Value.vNone

/-- Python `data.get(k, default)`. -/
def dictGetD (d : List (String × Value)) (k : String) (dflt : Value) : Value :=
  match d.find? (fun kv => kv.1 == k) with
  | some kv => kv.2
  | none => dflt

/-- Subscript `v[k]` on a dict value (`None` when not a dict / missing). -/
def valueGet (v : Value) (k : String) : Value :=
  match v with
  | Value.vDict d => dictGet d k
  | _ => Value.vNone

mutual

/-- Python `==` on values (dict comparison order-sensitively
approximated; exact on the scalar payload fields compared here). -/
def beqValue : Value → Value → Bool
  | Value.vNone, Value.vNone => true
  | Value.vBool a, Value.vBool b => a == b
  | Value.vInt a, Value.vInt b => a == b
  | Value.vStr a, Value.vStr b => a == b
  | Value.vList a, Value.vList b => beqValueList a b
  | Value.vDict a, Value.vDict b => beqValueDict a b
  | _, _ => false

/-- Elementwise equality of value lists. -/
def beqValueList : List Value → List Value → Bool
  | [], [] => true
  | a :: as', b :: bs' => beqValue a b && beqValueList as' bs'
  | _, _ => false

/-- Itemwise equality of dict item lists. -/
def beqValueDict : List (String × Value) → List (String × Value) → Bool
  | [], [] => true
  | (ka, va) :: as', (kb, vb) :: bs' => ka == kb && beqValue va vb && beqValueDict as' bs'
  | _, _ => false

end

/-- The `'N/A'` sentinel of `_handle_speech_result`. -/
def naSentinel : Value :=
  Value.vStr "N/A"

/-- The translation lines printed for `data['translations']`. -/
def translationLines : Value → List String
  | Value.vList ts =>
    ts.map (fun t => "     " ++ pyStr (valueGet t "to") ++ ": \"" ++ pyStr (valueGet t "text") ++ "\"")
  | _ => []

/-- Embeds the `status == 'recognized'` branch of
`_handle_speech_result`: the ordered list of printed lines. -/
def handle_recognized (data : List (String × Value)) : List String :=
  let message_id := dictGet data "messageId"
  let text := dictGetD data "text" (Value.vStr "")
  let confidence := dictGet data "confidence"
  let duration := dictGet data "duration"
  let translations := dictGet data "translations"
  let sentiment := dictGet data "sentiment"
  let redacted := dictGet data "redactedText"
  ["✨ Final Result [" ++ pyStr message_id ++ "]:",
   "   Text: \"" ++ pyStr text ++ "\"",
   "   Confidence: " ++ pyStr (pyOr confidence naSentinel),
   "   Duration: " ++ pyStr (pyOr duration naSentinel) ++ "ms"]
  ++ (if truthy translations then "   Translations:" :: translationLines translations else [])
  ++ (if truthy sentiment then
        ["   Sentiment: " ++ pyStr (valueGet sentiment "label")
          ++ " (" ++ pyStr (valueGet sentiment "score") ++ ")"]
      else [])
  ++ (if truthy redacted && !beqValue redacted text then
        ["   Redacted: \"" ++ pyStr redacted ++ "\""]
      else [])
  ++ [String.mk (List.replicate 60 '─')]

/-- Embeds `_handle_speech_result`: interim results produce the
overwritten progress line, final results the permanent block, other
statuses nothing. -/
def handle_speech_result (data : List (String × Value)) : List String :=
  let status := dictGet data "status"
  if beqValue status (Value.vStr "recognizing") then
    ["🔄 Recognizing: " ++ pyStr (pyOr (dictGetD data "text" (Value.vStr "")) (Value.vStr "..."))]
  else if beqValue status (Value.vStr "recognized") then
    handle_recognized data
  else []

/-- `scipy.signal.resample` stand-in honouring the length contract,
used to instantiate witnesses. -/
def replicateZeros : List Int → Nat → List Int :=
  fun _ n => List.replicate n 0

/-- A connected-and-recording client holding both audio resources. -/
def shutdownState : ClientState :=
  ⟨true, true, 44100, 8000, some 0, some 0, []⟩

/-- An idle client with the initial 44100 Hz input rate. -/
def c9State : ClientState :=
  ⟨false, false, 44100, 8000, none, none, []⟩

/-- An input device accepting only the 16000 Hz probe rate. -/
def dev16k : DeviceInfo :=
  ⟨0, "USB Mic", 1, 44100, [16000]⟩

/-- A final-result payload whose confidence and duration are present but 0. -/
def dataZeroFields : List (String × Value) :=
  [("messageId", Value.vStr "m1"), ("text", Value.vStr "hola"),
   ("confidence", Value.vInt 0), ("duration", Value.vInt 0)]

/-- The same final-result payload with confidence and duration absent. -/
def dataMissingFields : List (String × Value) :=
  [("messageId", Value.vStr "m1"), ("text", Value.vStr "hola")]

/-- A session configuration with one API key. -/
def cfgA : Config :=
  ⟨"wss://sdk.verbum.ai", "KEY_ONE",
   [("language", Value.vStr "es-MX"), ("encoding", Value.vStr "PCM"),
    ("sampleRate", Value.vInt 8000)]⟩

/-- The same session configuration with a different API key. -/
def cfgB : Config :=
  ⟨"wss://sdk.verbum.ai", "KEY_TWO",
   [("language", Value.vStr "es-MX"), ("encoding", Value.vStr "PCM"),
    ("sampleRate", Value.vInt 8000)]⟩

end Mic

namespace Mic

/-- Claim C1: on each delivered audio block, a frame is handed to the
transport (an `audioStream` emission is scheduled) if and only if the
recording and connected flags are both set at delivery time; otherwise
the block is discarded, and in every case the client state — including
the (never-written) audio queue — is left unchanged, so nothing is
buffered for later emission. -/
theorem audio_callback_emits_iff_recording_and_connected :
    ∀ (R : List Int → Nat → List Int) (s : ClientState) (in_data : List Int),
      (audio_callback R s in_data).1 = s ∧
      ((audio_callback R s in_data).2.isSome = (s.is_recording && s.is_connected)) := by
  intro R s in_data
  unfold audio_callback
  cases h : s.is_recording && s.is_connected <;> simp [h]

/-- Output length of the transform under scipy's length contract. -/
theorem process_audio_chunk_length (R : List Int → Nat → List Int) (samples : List Int)
    (src tgt : Nat) (hne : src ≠ tgt) (hR : ∀ l n, (R l n).length = n) :
    (process_audio_chunk R samples src tgt).length = samples.length * tgt / src := by
  simp [process_audio_chunk, resample_audio, resampledLength, hne, hR]

/-- Claim C2 counterexample: a 1024-byte block (512 samples) resampled
from 44100 Hz to 8000 Hz yields 92 samples (the source truncates with
`int(...)`), not the 93 samples demanded by
`round(512 * 8000 / 44100)`. -/
theorem resample_length_not_rounded :
    (process_audio_chunk replicateZeros (List.replicate 512 0) 44100 8000).length = 92 ∧
    roundDiv (512 * 8000) 44100 = 93 := by
  constructor
  · rw [process_audio_chunk_length replicateZeros _ 44100 8000 (by decide)
      (fun l n => by simp [replicateZeros]), List.length_replicate]
  · decide

/-- Claim C2 as amended: for every non-empty block with source rate ≠
target rate, and `R` honouring scipy's length contract, the transform
produces exactly `⌊n · targetRate / sourceRate⌋` samples (truncation,
not rounding). -/
theorem resample_length_floor (R : List Int → Nat → List Int) (samples : List Int)
    (src tgt : Nat) (hne : src ≠ tgt) (_hnonempty : 0 < samples.length)
    (hR : ∀ l n, (R l n).length = n) :
    (process_audio_chunk R samples src tgt).length = samples.length * tgt / src :=
  process_audio_chunk_length R samples src tgt hne hR

/-- Witness for `resample_length_floor` at the spec's own scenario:
512 samples, 44100 Hz → 8000 Hz. -/
theorem resample_length_floor_witness :
    (44100 ≠ 8000) ∧ 0 < (List.replicate 512 (0 : Int)).length ∧
    (process_audio_chunk replicateZeros (List.replicate 512 0) 44100 8000).length =
      (List.replicate 512 (0 : Int)).length * 8000 / 44100 :=
  ⟨by decide, by rw [List.length_replicate]; decide,
   resample_length_floor replicateZeros (List.replicate 512 0) 44100 8000
     (by decide) (by rw [List.length_replicate]; decide)
     (fun l n => by simp [replicateZeros])⟩

/-- Claim C3: with the selected input rate already 16000 Hz, the open
loop raises as soon as the first attempt fails (its `attempt_rate ==
16000` check, commented `# Last attempt`, misfires on the first
iteration), although a later candidate (44100) would be accepted — the
claimed behaviour, first accepted rate of `[r, 44100, 48000, 16000]`,
would succeed. -/
theorem open_fallback_diverges_at_16000 :
    start_recording_open 16000 (fun r => r == 44100) = none ∧
    open_fallback_claim 16000 (fun r => r == 44100) = some 44100 := by
  decide

/-- Claim C4 counterexample: from the connected-and-recording state the
shutdown trace is stop stream, close stream, terminate PyAudio,
`streamEnd`, socket disconnect — the resources are released before
`streamEnd` and before the disconnect, so the claimed order (stop,
`streamEnd`, disconnect, release) does not hold. -/
theorem shutdown_release_precedes_streamEnd :
    (disconnect shutdownState).2 =
      [ShutdownEvent.stopStream, ShutdownEvent.closeStream, ShutdownEvent.terminatePA,
       ShutdownEvent.emitStreamEnd, ShutdownEvent.sioDisconnect] ∧
    ¬ claimC4Order (disconnect shutdownState).2 := by
  exact ⟨by decide, by decide⟩

/-- Claim C4 as amended: during shutdown from any connected-and-recording
state holding both audio resources, the steps occur in the order:
capture stopped, resources released (stream closed, audio subsystem
terminated), `streamEnd` emitted, socket disconnected. -/
theorem shutdown_order (s : ClientState) (hrec : s.is_recording = true)
    (hconn : s.is_connected = true) (hstream : s.audio_stream.isSome = true)
    (hpa : s.pyaudio_instance.isSome = true) :
    (disconnect s).2 =
      [ShutdownEvent.stopStream, ShutdownEvent.closeStream, ShutdownEvent.terminatePA,
       ShutdownEvent.emitStreamEnd, ShutdownEvent.sioDisconnect] := by
  obtain ⟨conn, rec, isr, sr, stream, pa, q⟩ := s
  simp only at hrec hconn hstream hpa
  subst hrec hconn
  cases stream with
  | none => simp at hstream
  | some a =>
    cases pa with
    | none => simp at hpa
    | some b => rfl

/-- Witness for `shutdown_order` at the concrete shutdown state. -/
theorem shutdown_order_witness :
    (disconnect shutdownState).2 =
      [ShutdownEvent.stopStream, ShutdownEvent.closeStream, ShutdownEvent.terminatePA,
       ShutdownEvent.emitStreamEnd, ShutdownEvent.sioDisconnect] :=
  shutdown_order shutdownState rfl rfl rfl rfl

/-- Away from zero-point transforms (rates equal, or a non-empty input
with a positive requested output length) the explicit-error model
agrees with `Except.ok` of the pure model, so the two embeddings
coincide on every path the other claims exercise. -/
theorem process_audio_chunk_exc_ok (R : List Int → Nat → List Int)
    (samples : List Int) (src tgt : Nat)
    (h : src = tgt ∨ (¬samples.isEmpty ∧ resampledLength samples.length src tgt ≠ 0)) :
    process_audio_chunk_exc R samples src tgt =
      Except.ok (process_audio_chunk R samples src tgt) := by
  rcases h with h | ⟨h1, h2⟩
  · simp [process_audio_chunk_exc, process_audio_chunk, Except.map, h]
  · by_cases he : src = tgt
    · simp [process_audio_chunk_exc, process_audio_chunk, Except.map, he]
    · simp [process_audio_chunk_exc, process_audio_chunk, resample_audio_exc,
        resample_audio, scipyResample, Except.map, Function.comp, he, h1, h2]

/-- Claim C5: on the rate-differing path (the default 44100 Hz →
8000 Hz configuration) the transform applied to an empty block reaches
`scipy.signal.resample` with zero data points, which raises `ValueError`
instead of returning the empty output the spec's edge case requires;
only the rate-equal path returns an empty output without raising. -/
theorem empty_block_raises :
    process_audio_chunk_exc replicateZeros [] 44100 8000 =
      Except.error "Invalid number of FFT data points (0) specified." ∧
    process_audio_chunk_exc replicateZeros [] 8000 8000 = Except.ok [] :=
  ⟨rfl, rfl⟩

/-- Claim C6: every sample of the transform's output is the (resampled)
input sample scaled by 1.1 and saturated, hence lies in
[-32768, 32767]; values whose scaled magnitude exceeds the range are
clamped to the corresponding bound, never wrapped. -/
theorem gain_saturates_int16 :
    (∀ (R : List Int → Nat → List Int) (samples : List Int) (src tgt : Nat) (y : Int),
        y ∈ process_audio_chunk R samples src tgt → int16Min ≤ y ∧ y ≤ int16Max) ∧
    (∀ x : Int, int16Max < Int.tdiv (11 * x) 10 → boost x = int16Max) ∧
    (∀ x : Int, Int.tdiv (11 * x) 10 < int16Min → boost x = int16Min) := by
  refine ⟨?_, ?_, ?_⟩
  · intro R samples src tgt y hy
    simp only [process_audio_chunk, List.mem_map] at hy
    obtain ⟨x, -, rfl⟩ := hy
    unfold boost int16Min int16Max
    exact ⟨le_max_left _ _, max_le (by norm_num) (min_le_left _ _)⟩
  · intro x hx
    unfold boost
    rw [min_eq_left hx.le, max_eq_right (by norm_num [int16Min, int16Max])]
  · intro x hx
    unfold boost
    rw [min_eq_right (hx.le.trans (by norm_num [int16Min, int16Max])), max_eq_left hx.le]

/-- Witness for `gain_saturates_int16`: 30000 boosts to the saturated
32767; 32000 clamps high; -32000 clamps low. -/
theorem gain_saturates_int16_witness :
    (int16Min ≤ (32767 : Int) ∧ (32767 : Int) ≤ int16Max) ∧
    boost 32000 = int16Max ∧ boost (-32000) = int16Min :=
  ⟨gain_saturates_int16.1 replicateZeros [30000] 8000 8000 32767 (by decide),
   gain_saturates_int16.2.1 32000 (by decide),
   gain_saturates_int16.2.2 (-32000) (by decide)⟩

/-- Claim C7: two configurations differing only in the API key produce
the same connection URL and query string; the key reaches only the
handshake auth payload `{token: apiKey}`. -/
theorem api_key_not_in_url (c₁ c₂ : Config) (hs : c₁.serverUrl = c₂.serverUrl)
    (ho : c₁.sttOptions = c₂.sttOptions) :
    connect_full_url c₁ = connect_full_url c₂ ∧
    connect_auth c₁ = [("token", c₁.apiKey)] := by
  unfold connect_full_url connect_query_string connect_auth
  rw [hs, ho]
  exact ⟨rfl, rfl⟩

/-- Witness for `api_key_not_in_url` on two concrete configurations
differing only in the key. -/
theorem api_key_not_in_url_witness :
    connect_full_url cfgA = connect_full_url cfgB ∧
    connect_auth cfgA = [("token", cfgA.apiKey)] :=
  api_key_not_in_url cfgA cfgB rfl rfl

/-- Claim C8 counterexample: a dict-valued option under the key
`custom` is serialized with Python `str` (single-quoted repr), not as
the JSON string the claim demands for every map value. -/
theorem dict_option_not_json_for_other_keys :
    serializeOption "custom" (Value.vDict [("a", Value.vInt 1)]) ≠
    serializeOptionClaim "custom" (Value.vDict [("a", Value.vInt 1)]) := by
  decide

/-- Claim C8 as amended: list values become comma-joined element
strings; a dict value becomes a JSON string only under the key `tags`;
a dict under any other key, and every scalar value, becomes its plain
Python string form. -/
theorem option_serialization_shapes :
    (∀ (key : String) (l : List Value),
        serializeOption key (Value.vList l) = String.intercalate "," (l.map pyStr)) ∧
    (∀ d : List (String × Value),
        serializeOption "tags" (Value.vDict d) = jsonDumps (Value.vDict d)) ∧
    (∀ (key : String) (d : List (String × Value)), key ≠ "tags" →
        serializeOption key (Value.vDict d) = pyStr (Value.vDict d)) ∧
    (∀ (key : String) (v : Value), v.isScalar = true → serializeOption key v = pyStr v) := by
  refine ⟨fun key l => rfl, fun d => by simp [serializeOption], ?_, ?_⟩
  · intro key d hk
    simp [serializeOption, hk]
  · intro key v hv
    cases v <;> first
      | rfl
      | simp [Value.isScalar] at hv

/-- Witness for `option_serialization_shapes` at a non-`tags` dict and
a scalar option. -/
theorem option_serialization_shapes_witness :
    ("custom" : String) ≠ "tags" ∧ (Value.vStr "es-MX").isScalar = true ∧
    serializeOption "custom" (Value.vDict [("a", Value.vInt 1)]) =
      pyStr (Value.vDict [("a", Value.vInt 1)]) ∧
    serializeOption "language" (Value.vStr "es-MX") = pyStr (Value.vStr "es-MX") :=
  ⟨by decide, by decide,
   option_serialization_shapes.2.2.1 "custom" [("a", Value.vInt 1)] (by decide),
   option_serialization_shapes.2.2.2 "language" (Value.vStr "es-MX") (by decide)⟩

/-- Claim C9 counterexample: selecting a device that supports only
16000 Hz rewrites the client's configured input sample rate from 44100
to 16000 — device selection is not free of side effects on state
observable by later operations. -/
theorem device_selection_mutates_rate :
    c9State.input_sample_rate = 44100 ∧
    (find_best_microphone_state c9State [dev16k]).1.input_sample_rate = 16000 := by
  decide

/-- Claim C9 as amended: device selection opens no stream and leaves
every state field unchanged except `input_sample_rate`, which it sets
to the chosen device's preferred supported rate (44100 if supported,
else 48000, else the first supported probe rate); when no device
qualifies the whole state is unchanged. -/
theorem device_selection_frame (s : ClientState) (devices : List DeviceInfo) :
    ((find_best_microphone_state s devices).1.is_connected = s.is_connected) ∧
    ((find_best_microphone_state s devices).1.is_recording = s.is_recording) ∧
    ((find_best_microphone_state s devices).1.sample_rate = s.sample_rate) ∧
    ((find_best_microphone_state s devices).1.audio_stream = s.audio_stream) ∧
    ((find_best_microphone_state s devices).1.pyaudio_instance = s.pyaudio_instance) ∧
    ((find_best_microphone_state s devices).1.queued = s.queued) ∧
    ((find_best_microphone_state s devices).1.input_sample_rate =
      (find_best_microphone s.input_sample_rate devices).2) ∧
    (devices.filterMap probeDevice = [] → (find_best_microphone_state s devices).1 = s) := by
  refine ⟨rfl, rfl, rfl, rfl, rfl, rfl, rfl, fun h => ?_⟩
  obtain ⟨conn, rec, isr, sr, stream, pa, q⟩ := s
  simp [find_best_microphone_state, find_best_microphone, h, sortByKeyDesc]

/-- Witness for `device_selection_frame` with an empty enumeration. -/
theorem device_selection_frame_witness :
    (find_best_microphone_state c9State []).1 = c9State :=
  (device_selection_frame c9State []).2.2.2.2.2.2.2 rfl

/-- Claim C10: the `'N/A'` sentinel produced by Python's `or` is chosen
exactly when the field value is missing/`None` or falsy (0, empty
string, ...), for every value other than the literal sentinel string
itself; consequently a final event carrying confidence 0 and duration 0
renders the identical block to one where both fields are absent. -/
theorem na_sentinel_iff_falsy :
    (∀ v : Value, v ≠ naSentinel → (pyOr v naSentinel = naSentinel ↔ truthy v = false)) ∧
    handle_recognized dataZeroFields = handle_recognized dataMissingFields := by
  constructor
  · intro v hv
    unfold pyOr
    cases h : truthy v <;> simp [h, hv]
  · decide

/-- Witness for `na_sentinel_iff_falsy` at the present-but-zero value. -/
theorem na_sentinel_iff_falsy_witness :
    pyOr (Value.vInt 0) naSentinel = naSentinel ↔ truthy (Value.vInt 0) = false :=
  na_sentinel_iff_falsy.1 (Value.vInt 0) (by simp [naSentinel])

end Mic

